import Mathlib

/-
Verification of the G.E.N.G.A.R assistant core (src/core/gengar.py and
src/core/ai_handler.py): a shallow embedding of the response catalog,
the router dispatch chain and the session bookkeeping, together with
theorems about the routing and recording behaviour.

Time is modelled as a natural-number clock; the command registry
(an external collaborator, `self.command_handler.execute`) is modelled
as a function returning `Except String (Option String)`, where
`Except.error e` stands for the collaborator raising an exception with
message `e` and `Except.ok` for a normal return of `None` or a string.
-/

namespace Gengar

/-- The whitespace characters stripped by Python `str.strip()`
(ASCII range, as exercised by this program). -/
def isPySpace (c : Char) : Bool :=
  c == ' ' || c == '\t' || c == '\n' || c == '\r' || c == '\x0B' || c == '\x0C'

/-- Python `str.lower()` (ASCII case mapping). -/
def pyLower (s : String) : String :=
  ⟨s.data.map Char.toLower⟩

/-- `leadsList n h` is true when the character list `n` is a leading
segment of `h`; building block for substring containment. -/
def leadsList : List Char → List Char → Bool
  | [], _ => true
  | _ :: _, [] => false
  | a :: as, b :: bs => a == b && leadsList as bs

/-- `listContains n h` is true when `n` occurs contiguously inside `h`. -/
def listContains (needle : List Char) : List Char → Bool
  | [] => leadsList needle []
  | b :: bs => leadsList needle (b :: bs) || listContains needle bs

/-- Python substring test `needle in hay` on strings. -/
def strContains (hay needle : String) : Bool :=
  listContains needle.data hay.data

/-- Drop leading Python whitespace from a character list. -/
def stripLeft (l : List Char) : List Char :=
  l.dropWhile isPySpace

/-- Python `str.strip()`: remove leading and trailing whitespace. -/
def pyStrip (s : String) : String :=
  ⟨(stripLeft (stripLeft s.data.reverse).reverse)⟩

/-- The loop guard `not user_input.strip()` of `GENGAR.command_loop`:
true exactly when the input is empty or whitespace-only. -/
def stripIsEmpty (s : String) : Bool :=
  pyStrip s == ""

/-- Trigger test used by each branch of
`AIHandler.get_fallback_response`: Python
`any(word in user_input_lower for word in [...])`. -/
def ruleMatches (words : List String) (lowered : String) : Bool :=
  words.any (fun w => strContains lowered w)

/-- SQL-injection rule body (src/core/ai_handler.py, lines 65-77). -/
def sqlBody : String :=
  "\nðŸ” SQL Injection (SQLi) is a web security vulnerability that allows attackers to \ninterfere with database queries. It occurs when user input is directly concatenated \ninto SQL statements without proper sanitization.\n\nCommon types:\nâ€¢ Union-based SQLi\nâ€¢ Boolean-based SQLi  \nâ€¢ Time-based SQLi\nâ€¢ Error-based SQLi\n\nPrevention: Use parameterized queries, input validation, and proper escaping.\n            "

/-- Privilege-escalation rule body (lines 80-90). -/
def privescBody : String :=
  "\nðŸ” Privilege Escalation is the process of gaining higher-level permissions on a \nsystem than originally intended. This is a critical phase in penetration testing.\n\nCommon techniques:\nâ€¢ Linux: SUID binaries, cron jobs, kernel exploits\nâ€¢ Windows: Token manipulation, service abuse, registry exploits\nâ€¢ Web: File upload bypass, command injection\n\nTools: LinPEAS, WinPEAS, PowerSploit, Metasploit\n            "

/-- Scanning rule body (lines 93-103). -/
def nmapBody : String :=
  "\nðŸ“¡ Nmap is a powerful network scanning tool used for discovery and security auditing.\n\nCommon commands:\nâ€¢ nmap -sC -sV [IP] - Basic scan with scripts and version detection\nâ€¢ nmap -p- [IP] - Scan all ports\nâ€¢ nmap --script vuln [IP] - Vulnerability scan\nâ€¢ nmap -A [IP] - Aggressive scan\n\nRemember to only scan systems you own or have permission to test.\n            "

/-- CTF rule body (lines 106-118). -/
def ctfBody : String :=
  "\nðŸ Capture The Flag (CTF) competitions are cybersecurity challenges that test \nvarious skills including:\n\nCategories:\nâ€¢ Web Exploitation - SQLi, XSS, file uploads\nâ€¢ Reverse Engineering - Binary analysis, malware analysis\nâ€¢ Cryptography - Encryption/decryption challenges\nâ€¢ Forensics - File analysis, memory dumps\nâ€¢ Steganography - Hidden data in files/images\n\nPlatforms: TryHackMe, Hack The Box, PicoCTF, OverTheWire\n            "

/-- Metasploit rule body (lines 121-137). -/
def metasploitBody : String :=
  "\nðŸ’¥ Metasploit Framework is a penetration testing platform that provides tools for:\n\nâ€¢ Exploit development and execution\nâ€¢ Post-exploitation modules\nâ€¢ Payload generation\nâ€¢ Auxiliary modules for reconnaissance\n\nCommon commands:\nâ€¢ msfconsole - Start Metasploit console\nâ€¢ search [exploit] - Search for exploits\nâ€¢ use [module] - Load a module\nâ€¢ set [option] [value] - Configure options\nâ€¢ exploit - Execute the module\n\nAlways use responsibly and only on authorized systems.\n            "

/-- Help rule body (lines 140-159). -/
def helpBody : String :=
  "\nðŸ¤– I\x27m G.E.N.G.A.R, your cybersecurity AI assistant! I can help with:\n\nðŸ” Security Concepts:\nâ€¢ Explaining vulnerabilities and attack vectors\nâ€¢ Describing penetration testing methodologies\nâ€¢ Clarifying security tools and their usage\n\nðŸ CTF Assistance:\nâ€¢ Explaining challenge types and techniques\nâ€¢ Providing guidance on problem-solving approaches\nâ€¢ Sharing relevant tools and resources\n\nðŸ› ï¸ Technical Support:\nâ€¢ Command explanations and usage\nâ€¢ Tool recommendations for specific tasks\nâ€¢ Best practices and security guidelines\n\nðŸ’¡ Just ask me about any cybersecurity topic, tool, or technique!\n            "

/-- Default template (lines 162-174): the original, non-lowercased input interpolated into fixed text. -/
def defaultBody (user_input : String) : String :=
  "\nðŸ¤– I understand you\x27re asking about: \"" ++ user_input ++ "\"\n\nI\x27m G.E.N.G.A.R, a cybersecurity-focused AI assistant. I can help with:\nâ€¢ Security concepts and vulnerabilities\nâ€¢ Penetration testing techniques\nâ€¢ CTF challenges and problem-solving\nâ€¢ Tool usage and recommendations\nâ€¢ Security best practices\n\nTry asking me about specific topics like \"SQL injection\", \"privilege escalation\", \n\"nmap scanning\", or \"CTF challenges\" for detailed explanations!\n            "

/-- The help text template of GENGAR.get_help_text (src/core/gengar.py, lines 153-179), before the final strip. -/
def helpTemplate : String :=
  "\n🤖 G.E.N.G.A.R AI Assistant - Available Commands:\n\n📋 System Commands:\n  • help, ? - Show this help message\n  • status - Show system status\n  • exit, quit, shutdown - Exit G.E.N.G.A.R\n\n🔧 Custom Commands:\n  • scan [target] - Network port scan\n  • vpn status - Check VPN connection\n  • firewall logs - Show firewall logs\n  • system info - Get system information\n  • network scan [range] - Scan network range\n\n🧠 AI Features:\n  • Ask questions about cybersecurity\n  • Request help with penetration testing\n  • Get explanations of security concepts\n  • Discuss CTF challenges and techniques\n\n💡 Examples:\n  • \"What is SQL injection?\"\n  • \"Help me understand privilege escalation\"\n  • \"Scan 192.168.1.1\"\n  • \"Check VPN status\"\n        "


/-- The fallback catalog of `AIHandler.get_fallback_response`
(src/core/ai_handler.py, lines 59-174), branch for branch. -/
def get_fallback_response (user_input : String) : String :=
  let user_input_lower := pyLower user_input
  if ruleMatches ["sql injection", "sqli"] user_input_lower then
    sqlBody
  else if ruleMatches ["privilege escalation", "privesc"] user_input_lower then
    privescBody
  else if ruleMatches ["nmap", "scan"] user_input_lower then
    nmapBody
  else if ruleMatches ["ctf", "capture the flag"] user_input_lower then
    ctfBody
  else if ruleMatches ["metasploit", "msf"] user_input_lower then
    metasploitBody
  else if ruleMatches ["help", "what can you do"] user_input_lower then
    helpBody
  else
    defaultBody user_input

/-- The keyword list of `AIHandler.is_cybersecurity_related`
(src/core/ai_handler.py, lines 178-185). -/
def security_keywords : List String :=
  ["hack", "security", "vulnerability", "exploit", "penetration",
   "ctf", "flag", "shell", "reverse", "payload", "injection",
   "xss", "sqli", "csrf", "lfi", "rfi", "privesc", "escalation",
   "nmap", "metasploit", "burp", "wireshark", "kali", "linux",
   "windows", "network", "port", "scan", "firewall", "vpn",
   "encryption", "crypto", "hash", "password", "brute", "force"]

/-- `AIHandler.is_cybersecurity_related` (src/core/ai_handler.py,
lines 176-188). -/
def is_cybersecurity_related (user_input : String) : Bool :=
  security_keywords.any (fun keyword => strContains (pyLower user_input) keyword)

/-- The catalog rule table in source order: trigger lists paired with
bodies, used by the spec-level first-match classifier below. -/
def rules : List (List String × String) :=
  [(["sql injection", "sqli"], sqlBody),
   (["privilege escalation", "privesc"], privescBody),
   (["nmap", "scan"], nmapBody),
   (["ctf", "capture the flag"], ctfBody),
   (["metasploit", "msf"], metasploitBody),
   (["help", "what can you do"], helpBody)]

/-- Spec-level classifier, written from the specification words
(§4.1): evaluate the rules of `rules` in their fixed priority order and
return the body of the first rule any of whose triggers occurs in the
lower-cased input; otherwise the default template with the original
input interpolated. -/
def classifyRules (user_input : String) : String :=
  match rules.find? (fun r => ruleMatches r.1 (pyLower user_input)) with
  | some r => r.2
  | none => defaultBody user_input

/-- The configuration values the modelled core reads
(`self.config.get(...)` in src/core). -/
structure Config where
  openai_api_key : String
  voice_enabled : Bool
  ai_model : String
  deriving DecidableEq

namespace AIHandler

/-- `AIHandler._call_openai` (src/core/ai_handler.py, lines 53-57):
placeholder that returns the fallback response. -/
def call_openai (user_input : String) : String :=
  get_fallback_response user_input

/-- `AIHandler.process` (src/core/ai_handler.py, lines 38-51):
without an API key, answer from the fallback catalog; otherwise call
the (placeholder) OpenAI path. -/
def process (cfg : Config) (user_input : String) : String :=
  if cfg.openai_api_key == "" then
    get_fallback_response user_input
  else
    call_openai user_input

end AIHandler

/-- One entry of `self.command_history` as built by
`GENGAR.log_command` (timestamp elided, duration modelled as the
rendered elapsed clock). -/
structure SessionRecord where
  user_input : String
  response : String
  session_duration : String
  deriving DecidableEq

/-- The router session state: `self.is_running`, `self.session_start`
and `self.command_history` of the `GENGAR` class. -/
structure GENGARState where
  is_running : Bool
  session_start : Option Nat
  command_history : List SessionRecord
  deriving DecidableEq

/-- The session summary document built by
`GENGAR.save_session_summary` (src/core/gengar.py, lines 230-250). -/
structure SessionSummary where
  session_start : Nat
  session_end : Nat
  duration : Nat
  total_commands : Nat
  commands_processed : List String
  deriving DecidableEq

/-- The `session_duration` field of a history entry:
`str(datetime.now() - self.session_start) if self.session_start else "N/A"`. -/
def sessionDurationStr (start : Option Nat) (now : Nat) : String :=
  match start with
  | some t => toString (now - t)
  | none => "N/A"

/-- Rendering of `self.session_start` inside the status f-string
(`None` when unset, the numeric clock value otherwise). -/
def sessionStartStr (start : Option Nat) : String :=
  match start with
  | some t => toString t
  | none => "None"

/-- Python `str` of a boolean, as interpolated into the status text. -/
def pyBoolStr (b : Bool) : String :=
  if b then "True" else "False"

namespace GENGAR

/-- `GENGAR.get_help_text` (src/core/gengar.py, lines 151-180):
the help template, stripped. -/
def get_help_text : String :=
  pyStrip helpTemplate

/-- `GENGAR.get_system_status` (src/core/gengar.py, lines 182-196):
the status f-string, stripped. `ncmds` stands for
`len(self.command_handler.commands)`. -/
def get_system_status (cfg : Config) (ncmds now : Nat) (st : GENGARState) : String :=
  pyStrip ("\n📊 G.E.N.G.A.R System Status:\n\n🕐 Session Start: " ++
    sessionStartStr st.session_start ++ "\n⏱️  Uptime: " ++
    sessionDurationStr st.session_start now ++ "\n🎤 Voice Enabled: " ++
    pyBoolStr cfg.voice_enabled ++ "\n🤖 AI Model: " ++ cfg.ai_model ++
    "\n📝 Commands Processed: " ++ toString st.command_history.length ++
    "\n🔧 Custom Commands: " ++ toString ncmds ++ "\n        ")

/-- `GENGAR.process_command` (src/core/gengar.py, lines 117-142).
`ch` is the command-registry collaborator
(`self.command_handler.execute`); an `Except.error` models the entire
`try` body being aborted by a collaborator exception, answered by the
`except` clause with the error text. -/
def process_command (ch : String → Except String (Option String)) (cfg : Config)
    (ncmds now : Nat) (st : GENGARState) (user_input : String) :
    String × GENGARState :=
  if (["exit", "quit", "shutdown"] : List String).contains (pyLower user_input) then
    ("🛑 Shutting down G.E.N.G.A.R...", { st with is_running := false })
  else if (["help", "?"] : List String).contains (pyLower user_input) then
    (get_help_text, st)
  else if pyLower user_input == "status" then
    (get_system_status cfg ncmds now st, st)
  else
    match ch user_input with
    | Except.error e => ("❌ Error processing command: " ++ e, st)
    | Except.ok command_response =>
      match command_response with
      | some r => if r == "" then (AIHandler.process cfg user_input, st) else (r, st)
      | none => (AIHandler.process cfg user_input, st)

/-- `GENGAR.log_command` (src/core/gengar.py, lines 198-215): append
the record to the in-memory history, then attempt the per-command file
write. `writeFails = some e` models the write raising `e`; the caught
exception only yields an internal logger message (the second
component), returned here so independence can be stated. -/
def log_command (writeFails : Option String) (now : Nat) (st : GENGARState)
    (user_input response : String) : GENGARState × Option String :=
  let command_log : SessionRecord :=
    { user_input := user_input, response := response,
      session_duration := sessionDurationStr st.session_start now }
  let st1 := { st with command_history := st.command_history ++ [command_log] }
  match writeFails with
  | some e => (st1, some ("Error logging command: " ++ e))
  | none => (st1, none)

/-- One iteration of `GENGAR.command_loop` (src/core/gengar.py,
lines 82-97) on input `user_input`: skip whitespace-only input,
otherwise process, then record. Returns the new state and the response
displayed (`none` when the input was skipped). -/
def loop_step (ch : String → Except String (Option String)) (cfg : Config)
    (ncmds : Nat) (writeFails : Option String) (now : Nat) (st : GENGARState)
    (user_input : String) : GENGARState × Option String :=
  if stripIsEmpty user_input then
    (st, none)
  else
    let pr := process_command ch cfg ncmds now st user_input
    let st2 := (log_command writeFails now pr.2 user_input pr.1).1
    (st2, some pr.1)

/-- `GENGAR.save_session_summary` (src/core/gengar.py, lines 230-250):
no summary when the session never started, otherwise the summary
document (whose file write may fail silently afterwards). -/
def save_session_summary (now : Nat) (st : GENGARState) : Option SessionSummary :=
  match st.session_start with
  | none => none
  | some t0 =>
    some { session_start := t0, session_end := now, duration := now - t0,
           total_commands := st.command_history.length,
           commands_processed := st.command_history.map (fun c => c.user_input) }

end GENGAR

/-- Sample collaborator: no registered command matches. -/
def chNone : String → Except String (Option String) :=
  fun _ => Except.ok none

/-- Sample collaborator: the registry raises on every input. -/
def chFail : String → Except String (Option String) :=
  fun _ => Except.error "registry failure"

/-- Sample collaborator: the registry returns a present empty string. -/
def chEmpty : String → Except String (Option String) :=
  fun _ => Except.ok (some "")

/-- Sample configuration (the defaults of src/core/config.py). -/
def cfg0 : Config :=
  { openai_api_key := "", voice_enabled := false, ai_model := "gpt-4" }

/-- Sample started session state. -/
def st0 : GENGARState :=
  { is_running := true, session_start := some 0, command_history := [] }

end Gengar

/-
Helper lemmas about the string model and the router, shared by the
claim theorems below.
-/

namespace Gengar

theorem listContains_nil_needle (h : List Char) : listContains [] h = true := by
  cases h <;> rfl

theorem leadsList_self_append (n y : List Char) : leadsList n (n ++ y) = true := by
  induction n with
  | nil => rfl
  | cons a as ih => simp [leadsList, ih]

theorem listContains_append_self (x n y : List Char) :
    listContains n (x ++ (n ++ y)) = true := by
  induction x with
  | nil =>
    cases n with
    | nil => exact listContains_nil_needle _
    | cons a as =>
      simp only [List.nil_append, List.cons_append, listContains, List.append_eq]
      rw [← List.cons_append, leadsList_self_append]
      rfl
  | cons c cs ih =>
    simp only [List.cons_append, listContains, List.append_eq, ih, Bool.or_true]

theorem leadsList_exists {n h : List Char} (hl : leadsList n h = true) :
    ∃ y, h = n ++ y := by
  induction n generalizing h with
  | nil => exact ⟨h, rfl⟩
  | cons a as ih =>
    cases h with
    | nil => simp [leadsList] at hl
    | cons b bs =>
      simp only [leadsList, Bool.and_eq_true, beq_iff_eq] at hl
      obtain ⟨y, hy⟩ := ih hl.2
      exact ⟨y, by rw [hl.1, List.cons_append, ← hy]⟩

theorem listContains_exists {n h : List Char} (hc : listContains n h = true) :
    ∃ x y, h = x ++ n ++ y := by
  induction h with
  | nil =>
    cases n with
    | nil => exact ⟨[], [], rfl⟩
    | cons a as => simp [listContains, leadsList] at hc
  | cons b bs ih =>
    simp only [listContains, Bool.or_eq_true] at hc
    rcases hc with hlead | htail
    · obtain ⟨y, hy⟩ := leadsList_exists hlead
      exact ⟨[], y, by simpa using hy⟩
    · obtain ⟨x, y, hxy⟩ := ih htail
      exact ⟨b :: x, y, by simp [hxy]⟩

theorem listContains_of_exists {n : List Char} (x y : List Char) :
    listContains n (x ++ n ++ y) = true := by
  rw [List.append_assoc]
  exact listContains_append_self x n y

theorem listContains_trans {a b c : List Char} (hab : listContains a b = true)
    (hbc : listContains b c = true) : listContains a c = true := by
  obtain ⟨u, v, huv⟩ := listContains_exists hab
  obtain ⟨x, y, hxy⟩ := listContains_exists hbc
  subst huv
  subst hxy
  have : x ++ (u ++ a ++ v) ++ y = (x ++ u) ++ a ++ (v ++ y) := by
    simp [List.append_assoc]
  rw [this]
  exact listContains_of_exists _ _

theorem strContains_trans {hay mid needle : String}
    (h1 : strContains hay mid = true) (h2 : strContains mid needle = true) :
    strContains hay needle = true :=
  listContains_trans h2 h1

theorem strContains_of_middle (a b : String) (ui : String) :
    strContains (a ++ ui ++ b) ui = true := by
  show listContains ui.data (a ++ ui ++ b).data = true
  have : (a ++ ui ++ b).data = a.data ++ ui.data ++ b.data := by
    simp [String.data_append]
  rw [this]
  exact listContains_of_exists _ _

end Gengar

namespace Gengar

theorem process_command_preserves_history (ch : String → Except String (Option String))
    (cfg : Config) (ncmds now : Nat) (st : GENGARState) (ui : String) :
    (GENGAR.process_command ch cfg ncmds now st ui).2.command_history =
      st.command_history ∧
    (GENGAR.process_command ch cfg ncmds now st ui).2.session_start =
      st.session_start := by
  unfold GENGAR.process_command
  repeat' first
    | exact ⟨rfl, rfl⟩
    | split

theorem process_command_running_preserved (ch : String → Except String (Option String))
    (cfg : Config) (ncmds now : Nat) (st : GENGARState) (ui : String)
    (h : (["exit", "quit", "shutdown"] : List String).contains (pyLower ui) = false) :
    (GENGAR.process_command ch cfg ncmds now st ui).2.is_running = st.is_running := by
  unfold GENGAR.process_command
  rw [h]
  simp only [Bool.false_eq_true, if_false]
  repeat' first
    | exact rfl
    | split

theorem ai_process_eq_fallback (cfg : Config) (ui : String) :
    AIHandler.process cfg ui = get_fallback_response ui := by
  unfold AIHandler.process AIHandler.call_openai
  split <;> rfl

set_option maxRecDepth 8192 in
theorem defaultBody_ne_empty (ui : String) : defaultBody ui ≠ "" := by
  intro h
  have hd : (defaultBody ui).data = "".data := congrArg String.data h
  rw [defaultBody] at hd
  simp only [String.data_append] at hd
  rcases List.append_eq_nil.mp hd with ⟨h1, -⟩
  rcases List.append_eq_nil.mp h1 with ⟨h2, -⟩
  exact absurd h2 (by decide)

theorem fallback_ne_empty (ui : String) : get_fallback_response ui ≠ "" := by
  intro h
  simp only [get_fallback_response] at h
  repeat' split at h
  all_goals first
    | exact absurd h (by decide)
    | exact defaultBody_ne_empty ui h

end Gengar

namespace Gengar

theorem log_command_fst (wf : Option String) (now : Nat) (st : GENGARState)
    (ui resp : String) :
    (GENGAR.log_command wf now st ui resp).1 =
      { st with command_history := st.command_history ++
          [{ user_input := ui, response := resp,
             session_duration := sessionDurationStr st.session_start now }] } := by
  cases wf <;> rfl

theorem fallback_length_pos (ui : String) : 0 < (get_fallback_response ui).length := by
  have h := fallback_ne_empty ui
  have hd : (get_fallback_response ui).data ≠ [] := fun hnil => h (String.ext hnil)
  exact List.length_pos.mpr hd

/-- C10: the catalog fallback always yields a visible response: for
every input, `get_fallback_response` returns a string of positive
length (each keyword branch is a fixed non-empty template and the
default branch embeds the input inside non-empty fixed text). -/
theorem catalog_always_responds (ui : String) :
    0 < (get_fallback_response ui).length :=
  fallback_length_pos ui

/-- C5: on whitespace-only (or empty) input, one loop iteration skips
dispatch entirely: no record is appended, no response is produced, and
the whole session state (running flag included) is returned unchanged. -/
theorem router_skips_whitespace_input (ch : String → Except String (Option String))
    (cfg : Config) (ncmds : Nat) (wf : Option String) (now : Nat)
    (st : GENGARState) (ui : String) (h : stripIsEmpty ui = true) :
    GENGAR.loop_step ch cfg ncmds wf now st ui = (st, none) := by
  simp only [GENGAR.loop_step, h, if_true]

theorem router_skips_whitespace_input_witness :
    GENGAR.loop_step chNone cfg0 0 none 3 st0 " \t  " = (st0, none) :=
  router_skips_whitespace_input chNone cfg0 0 none 3 st0 " \t  " (by decide)

/-- C9: appending a record to the in-memory history never fails and is
independent of persistence: whatever the per-command file write does
(`wf = some e` models the write raising `e`), the record is appended,
the rest of the state is untouched, the resulting state equals the one
of a successful write, and the loop iteration outcome is identical. -/
theorem log_append_independent_of_write (ch : String → Except String (Option String))
    (cfg : Config) (ncmds : Nat) (wf : Option String) (now : Nat)
    (st : GENGARState) (ui resp : String) :
    (GENGAR.log_command wf now st ui resp).1.command_history =
      st.command_history ++
        [{ user_input := ui, response := resp,
           session_duration := sessionDurationStr st.session_start now }] ∧
    (GENGAR.log_command wf now st ui resp).1.is_running = st.is_running ∧
    (GENGAR.log_command wf now st ui resp).1.session_start = st.session_start ∧
    (GENGAR.log_command wf now st ui resp).1 =
      (GENGAR.log_command none now st ui resp).1 ∧
    GENGAR.loop_step ch cfg ncmds wf now st ui =
      GENGAR.loop_step ch cfg ncmds none now st ui := by
  refine ⟨?_, ?_, ?_, ?_, ?_⟩ <;> cases wf <;> rfl

/-- C4: an input that case-insensitively equals one of the shutdown
directives flips the running flag from true to false, is answered with
the shutdown acknowledgement, and the shutdown sequence applied to the
resulting state produces the session summary. -/
theorem router_shutdown_directive (ch : String → Except String (Option String))
    (cfg : Config) (ncmds now now2 : Nat) (st : GENGARState) (ui : String)
    (t0 : Nat)
    (hdir : (["exit", "quit", "shutdown"] : List String).contains (pyLower ui) = true)
    (_hrun : st.is_running = true)
    (hstart : st.session_start = some t0) :
    (GENGAR.process_command ch cfg ncmds now st ui).1 =
      "🛑 Shutting down G.E.N.G.A.R..." ∧
    (GENGAR.process_command ch cfg ncmds now st ui).2.is_running = false ∧
    GENGAR.save_session_summary now2 (GENGAR.process_command ch cfg ncmds now st ui).2 =
      some { session_start := t0, session_end := now2, duration := now2 - t0,
             total_commands := st.command_history.length,
             commands_processed := st.command_history.map (fun c => c.user_input) } := by
  have hpc : GENGAR.process_command ch cfg ncmds now st ui =
      ("🛑 Shutting down G.E.N.G.A.R...", { st with is_running := false }) := by
    simp only [GENGAR.process_command, hdir, if_true]
  rw [hpc]
  refine ⟨rfl, rfl, ?_⟩
  simp [GENGAR.save_session_summary, hstart]

theorem router_shutdown_directive_witness :
    (GENGAR.process_command chNone cfg0 0 7 st0 "EXIT").1 =
      "🛑 Shutting down G.E.N.G.A.R..." ∧
    (GENGAR.process_command chNone cfg0 0 7 st0 "EXIT").2.is_running = false ∧
    GENGAR.save_session_summary 9 (GENGAR.process_command chNone cfg0 0 7 st0 "EXIT").2 =
      some { session_start := 0, session_end := 9, duration := 9 - 0,
             total_commands := st0.command_history.length,
             commands_processed := st0.command_history.map (fun c => c.user_input) } :=
  router_shutdown_directive chNone cfg0 0 7 9 st0 "EXIT" 0 (by decide) rfl rfl

/-- C7: when the command registry returns a present but empty string
for a non-directive input, the empty string is not used as the
response: dispatch falls through to the catalog fallback, and the
session state is unchanged by dispatch. -/
theorem router_empty_command_response_falls_through
    (ch : String → Except String (Option String)) (cfg : Config)
    (ncmds now : Nat) (st : GENGARState) (ui : String)
    (hch : ch ui = Except.ok (some ""))
    (h1 : (["exit", "quit", "shutdown"] : List String).contains (pyLower ui) = false)
    (h2 : (["help", "?"] : List String).contains (pyLower ui) = false)
    (h3 : (pyLower ui == "status") = false) :
    (GENGAR.process_command ch cfg ncmds now st ui).1 = get_fallback_response ui ∧
    (GENGAR.process_command ch cfg ncmds now st ui).2 = st := by
  simp at h1 h2
  simp [GENGAR.process_command, h1, h2, h3, hch, ai_process_eq_fallback]

theorem router_empty_command_response_falls_through_witness :
    (GENGAR.process_command chEmpty cfg0 0 4 st0 "scan 10.0.0.1").1 =
      get_fallback_response "scan 10.0.0.1" ∧
    (GENGAR.process_command chEmpty cfg0 0 4 st0 "scan 10.0.0.1").2 = st0 :=
  router_empty_command_response_falls_through chEmpty cfg0 0 4 st0 "scan 10.0.0.1"
    rfl (by decide) (by decide) (by decide)

/-- C6: an input matching no rule trigger is answered with the default
template, with the original (non-lowercased) input interpolated into it
and hence contained verbatim in the response. -/
theorem catalog_default_embeds_input (ui : String)
    (h1 : ruleMatches ["sql injection", "sqli"] (pyLower ui) = false)
    (h2 : ruleMatches ["privilege escalation", "privesc"] (pyLower ui) = false)
    (h3 : ruleMatches ["nmap", "scan"] (pyLower ui) = false)
    (h4 : ruleMatches ["ctf", "capture the flag"] (pyLower ui) = false)
    (h5 : ruleMatches ["metasploit", "msf"] (pyLower ui) = false)
    (h6 : ruleMatches ["help", "what can you do"] (pyLower ui) = false) :
    get_fallback_response ui = defaultBody ui ∧
    strContains (get_fallback_response ui) ui = true := by
  have he : get_fallback_response ui = defaultBody ui := by
    simp only [get_fallback_response, h1, h2, h3, h4, h5, h6, Bool.false_eq_true,
      if_false]
  refine ⟨he, ?_⟩
  rw [he, defaultBody]
  exact strContains_of_middle _ _ _

theorem catalog_default_embeds_input_witness :
    get_fallback_response "Tell me about the WEATHER" =
      defaultBody "Tell me about the WEATHER" ∧
    strContains (get_fallback_response "Tell me about the WEATHER")
      "Tell me about the WEATHER" = true :=
  catalog_default_embeds_input "Tell me about the WEATHER" (by decide) (by decide)
    (by decide) (by decide) (by decide) (by decide)

end Gengar

namespace Gengar

/-- C1: every input whose strip is non-empty, processed by one loop
iteration, appends exactly one session record holding that input, the
produced response, and the elapsed time since session start, whichever
dispatch step (shutdown, help, status, registered command, catalog
fallback, or the error path) produced the response. -/
theorem router_appends_one_record_per_input
    (ch : String → Except String (Option String)) (cfg : Config) (ncmds : Nat)
    (wf : Option String) (now : Nat) (st : GENGARState) (ui : String)
    (h : stripIsEmpty ui = false) :
    (GENGAR.loop_step ch cfg ncmds wf now st ui).1.command_history =
      st.command_history ++
        [{ user_input := ui,
           response := (GENGAR.process_command ch cfg ncmds now st ui).1,
           session_duration := sessionDurationStr st.session_start now }] ∧
    (GENGAR.loop_step ch cfg ncmds wf now st ui).2 =
      some (GENGAR.process_command ch cfg ncmds now st ui).1 := by
  have hp := process_command_preserves_history ch cfg ncmds now st ui
  simp only [GENGAR.loop_step, h, Bool.false_eq_true, if_false, log_command_fst]
  refine ⟨by rw [hp.1, hp.2], ?_⟩
  trivial

theorem router_appends_one_record_per_input_witness :
    (GENGAR.loop_step chNone cfg0 0 none 7 st0 "status").1.command_history =
      st0.command_history ++
        [{ user_input := "status",
           response := (GENGAR.process_command chNone cfg0 0 7 st0 "status").1,
           session_duration := sessionDurationStr st0.session_start 7 }] ∧
    (GENGAR.loop_step chNone cfg0 0 none 7 st0 "status").2 =
      some (GENGAR.process_command chNone cfg0 0 7 st0 "status").1 :=
  router_appends_one_record_per_input chNone cfg0 0 none 7 st0 "status" (by decide)

/-- C2: when the command registry raises on a non-directive input, the
router answers with the error text instead of crashing, the input is
still recorded with that response, and the running flag is unchanged;
moreover, for any input that is not a shutdown directive, dispatch
never changes the running flag, so only a shutdown directive stops the
loop. -/
theorem router_contains_collaborator_failure :
    (∀ (ch : String → Except String (Option String)) (cfg : Config)
        (ncmds : Nat) (wf : Option String) (now : Nat) (st : GENGARState)
        (ui e : String),
        ch ui = Except.error e →
        (["exit", "quit", "shutdown"] : List String).contains (pyLower ui) = false →
        (["help", "?"] : List String).contains (pyLower ui) = false →
        (pyLower ui == "status") = false →
        stripIsEmpty ui = false →
        (GENGAR.loop_step ch cfg ncmds wf now st ui).2 =
          some ("❌ Error processing command: " ++ e) ∧
        (GENGAR.loop_step ch cfg ncmds wf now st ui).1.command_history =
          st.command_history ++
            [{ user_input := ui,
               response := "❌ Error processing command: " ++ e,
               session_duration := sessionDurationStr st.session_start now }] ∧
        (GENGAR.loop_step ch cfg ncmds wf now st ui).1.is_running = st.is_running) ∧
    (∀ (ch : String → Except String (Option String)) (cfg : Config)
        (ncmds now : Nat) (st : GENGARState) (ui : String),
        (["exit", "quit", "shutdown"] : List String).contains (pyLower ui) = false →
        (GENGAR.process_command ch cfg ncmds now st ui).2.is_running =
          st.is_running) := by
  constructor
  · intro ch cfg ncmds wf now st ui e hch h1 h2 h3 hstrip
    have hpc : GENGAR.process_command ch cfg ncmds now st ui =
        ("❌ Error processing command: " ++ e, st) := by
      simp at h1 h2
      simp [GENGAR.process_command, h1, h2, h3, hch]
    simp only [GENGAR.loop_step, hstrip, Bool.false_eq_true, if_false,
      log_command_fst, hpc]
    refine ⟨?_, ?_, ?_⟩ <;> trivial
  · intro ch cfg ncmds now st ui h
    exact process_command_running_preserved ch cfg ncmds now st ui h

theorem router_contains_collaborator_failure_witness :
    (GENGAR.loop_step chFail cfg0 0 none 5 st0 "scan 10.0.0.1").2 =
      some ("❌ Error processing command: " ++ "registry failure") ∧
    (GENGAR.loop_step chFail cfg0 0 none 5 st0 "scan 10.0.0.1").1.command_history =
      st0.command_history ++
        [{ user_input := "scan 10.0.0.1",
           response := "❌ Error processing command: " ++ "registry failure",
           session_duration := sessionDurationStr st0.session_start 5 }] ∧
    (GENGAR.loop_step chFail cfg0 0 none 5 st0 "scan 10.0.0.1").1.is_running =
      st0.is_running :=
  router_contains_collaborator_failure.1 chFail cfg0 0 none 5 st0 "scan 10.0.0.1"
    "registry failure" rfl (by decide) (by decide) (by decide) (by decide)

end Gengar

namespace Gengar

/-- C3 (counterexample): the input "sqli privesc nmap" contains both a
privilege-escalation trigger and an nmap trigger, yet the catalog
returns the SQL-injection body, which differs from the
privilege-escalation body — so "for every input containing both a
privilege-escalation trigger and an nmap trigger, the
privilege-escalation body is returned" is false as stated. -/
theorem catalog_priority_counterexample :
    ruleMatches ["privilege escalation", "privesc"] (pyLower "sqli privesc nmap") = true ∧
    ruleMatches ["nmap", "scan"] (pyLower "sqli privesc nmap") = true ∧
    get_fallback_response "sqli privesc nmap" = sqlBody ∧
    (sqlBody == privescBody) = false :=
  ⟨by decide, by decide, rfl, by decide⟩

/-- C3 (amended): the catalog evaluates its rules in the fixed priority
order SQL-injection, privilege-escalation, scanning, CTF,
exploitation-framework, help, default, returning the body of the first
rule whose triggers occur in the lower-cased input (equality with the
spec-level first-match classifier); in particular, an input containing
a privilege-escalation trigger and an nmap trigger but no
SQL-injection trigger is answered with the privilege-escalation body. -/
theorem catalog_first_match_priority :
    (∀ ui, get_fallback_response ui = classifyRules ui) ∧
    (∀ ui, ruleMatches ["privilege escalation", "privesc"] (pyLower ui) = true →
        ruleMatches ["nmap", "scan"] (pyLower ui) = true →
        ruleMatches ["sql injection", "sqli"] (pyLower ui) = false →
        get_fallback_response ui = privescBody) := by
  constructor
  · intro ui
    simp only [get_fallback_response, classifyRules, rules]
    cases h1 : ruleMatches ["sql injection", "sqli"] (pyLower ui) <;>
      cases h2 : ruleMatches ["privilege escalation", "privesc"] (pyLower ui) <;>
      cases h3 : ruleMatches ["nmap", "scan"] (pyLower ui) <;>
      cases h4 : ruleMatches ["ctf", "capture the flag"] (pyLower ui) <;>
      cases h5 : ruleMatches ["metasploit", "msf"] (pyLower ui) <;>
      cases h6 : ruleMatches ["help", "what can you do"] (pyLower ui) <;>
      simp [List.find?, h1, h2, h3, h4, h5, h6]
  · intro ui hpe hnm hsql
    simp [get_fallback_response, hpe, hsql]

theorem catalog_first_match_priority_witness :
    get_fallback_response "explain privesc then nmap" = privescBody ∧
    get_fallback_response "hello there" = classifyRules "hello there" :=
  ⟨catalog_first_match_priority.2 "explain privesc then nmap" (by decide)
      (by decide) (by decide),
   catalog_first_match_priority.1 "hello there"⟩

end Gengar

namespace Gengar

theorem domain_any_of (ui kw : String) (hkw : kw ∈ security_keywords)
    (h : strContains (pyLower ui) kw = true) :
    is_cybersecurity_related ui = true := by
  unfold is_cybersecurity_related
  exact List.any_eq_true.mpr ⟨kw, hkw, h⟩

/-- C8 (counterexample): the input "msf" matches the non-default
metasploit rule of the catalog (both in the implementation and in the
spec-level classifier), yet `is_cybersecurity_related` returns false —
so the keyword list is not a superset of the catalog rule triggers. -/
theorem domain_keyword_counterexample :
    get_fallback_response "msf" = metasploitBody ∧
    classifyRules "msf" = metasploitBody ∧
    (metasploitBody == defaultBody "msf") = false ∧
    is_cybersecurity_related "msf" = false :=
  ⟨rfl, rfl, by decide, by decide⟩

/-- C8 (amended): the domain predicate covers every trigger of the
SQL-injection, privilege-escalation, scanning and CTF rules and the
"metasploit" trigger of the exploitation-framework rule (but not the
triggers "msf", "help", "what can you do"); and the predicate never
gates whether a response is produced: even an input it classifies as
out of domain receives a non-empty catalog response. -/
theorem domain_keywords_cover_most_triggers :
    (∀ ui, (ruleMatches ["sql injection", "sqli"] (pyLower ui) = true ∨
        ruleMatches ["privilege escalation", "privesc"] (pyLower ui) = true ∨
        ruleMatches ["nmap", "scan"] (pyLower ui) = true ∨
        ruleMatches ["ctf", "capture the flag"] (pyLower ui) = true ∨
        strContains (pyLower ui) "metasploit" = true) →
      is_cybersecurity_related ui = true) ∧
    (∀ ui, is_cybersecurity_related ui = false →
      0 < (get_fallback_response ui).length) := by
  constructor
  · intro ui h
    rcases h with h | h | h | h | h
    · rcases List.any_eq_true.mp h with ⟨w, hw, hc⟩
      simp only [List.mem_cons, List.not_mem_nil, or_false] at hw
      rcases hw with rfl | rfl
      · exact domain_any_of ui "injection" (by decide)
          (strContains_trans hc (by decide))
      · exact domain_any_of ui "sqli" (by decide) hc
    · rcases List.any_eq_true.mp h with ⟨w, hw, hc⟩
      simp only [List.mem_cons, List.not_mem_nil, or_false] at hw
      rcases hw with rfl | rfl
      · exact domain_any_of ui "escalation" (by decide)
          (strContains_trans hc (by decide))
      · exact domain_any_of ui "privesc" (by decide) hc
    · rcases List.any_eq_true.mp h with ⟨w, hw, hc⟩
      simp only [List.mem_cons, List.not_mem_nil, or_false] at hw
      rcases hw with rfl | rfl
      · exact domain_any_of ui "nmap" (by decide) hc
      · exact domain_any_of ui "scan" (by decide) hc
    · rcases List.any_eq_true.mp h with ⟨w, hw, hc⟩
      simp only [List.mem_cons, List.not_mem_nil, or_false] at hw
      rcases hw with rfl | rfl
      · exact domain_any_of ui "ctf" (by decide) hc
      · exact domain_any_of ui "flag" (by decide)
          (strContains_trans hc (by decide))
    · exact domain_any_of ui "metasploit" (by decide) h
  · intro ui _
    exact fallback_length_pos ui

theorem domain_keywords_cover_most_triggers_witness :
    is_cybersecurity_related "use nmap" = true ∧
    0 < (get_fallback_response "what can you do").length :=
  ⟨domain_keywords_cover_most_triggers.1 "use nmap"
      (Or.inr (Or.inr (Or.inl (by decide)))),
   domain_keywords_cover_most_triggers.2 "what can you do" (by decide)⟩

end Gengar
